import Mathlib

/-!
Shallow embedding of the reef-core session-orchestration layer.

Each definition below mirrors one function of the TypeScript source:
  * `Reef.Status`, `Reef.Backend`, `Reef.SessionRow` — shared-types.ts / db.ts
  * `Reef.ReefEvent`, `Reef.emitReefEvent` — events.ts
  * db operations (`insertSession`, `updateSessionStatus`, `appendOutput`,
    `getSession`) — db.ts (JSON-store semantics: find-by-id, in-place update,
    `updated_at` refreshed on every write)
  * `Reef.Agent.kill`, `Reef.Agent.isAlive` — agent.ts
  * `Reef.SessionManager.kill`, `Reef.SessionManager.isAlive` — the
    SessionManager class
  * `Reef.ProviderRouter.route` and its completion/rejection continuations —
    provider-router.ts
  * `Reef.openaiRun` / `Reef.googleRun` — the two reference tool-loop
    providers
  * `Reef.wsDelivers`, `Reef.broadcastReef` — ws.ts
  * `Reef.getSessionsHandler`, `Reef.deleteSessionHandler` — the HTTP api
    handlers

External effects (subprocess execution, remote model calls, tmux, the
Pi SDK) are passed in as oracles/parameters; the event bus is modelled as
an append-only event log carried in the orchestrator state.
-/

namespace Reef

/-- Session status, from shared-types.ts `SessionStatus`. -/
inductive Status
  | running
  | completed
  | error
  | stopped
deriving DecidableEq, Repr

/-- A status is terminal when it is one of completed/error/stopped. -/
def Status.isTerminal : Status → Bool
  | .running => false
  | _ => true

/-- Execution backend, from shared-types.ts `Backend`. -/
inductive Backend
  | sdk
  | tmux
  | openai
  | google
deriving DecidableEq, Repr

/-- Durable session row, from db.ts `SessionRow`. -/
structure SessionRow where
  id : String
  task : String
  status : Status
  backend : Backend
  provider : Option String := none
  model : Option String := none
  tmux_session : Option String := none
  created_at : String := ""
  updated_at : String := ""
  output : List String := []
deriving DecidableEq, Repr

/-- Typed bus event, from events.ts / shared-types.ts.  The wire shape is
`{type, sessionId, data, timestamp}`; timestamps are irrelevant to every
claim and are dropped, the kind-specific `data` payload is inlined into
each constructor. -/
inductive ReefEvent
  | sessionNew (sessionId : String) (task : String) (backend : Backend)
  | sessionEnd (sessionId : String) (reason : String)
  | statusEv (sessionId : String) (status : Status) (error : Option String)
  | output (sessionId : String) (text : String)
  | toolStart (sessionId : String) (toolName : String) (command : String)
  | toolEnd (sessionId : String) (toolName : String)
deriving DecidableEq, Repr

/-- The session id an event is about (`event.sessionId`). -/
def ReefEvent.sid : ReefEvent → String
  | .sessionNew s _ _ => s
  | .sessionEnd s _ => s
  | .statusEv s _ _ => s
  | .output s _ => s
  | .toolStart s _ _ => s
  | .toolEnd s _ => s

/-- Recognise `session.end` events. -/
def ReefEvent.isSessionEnd : ReefEvent → Bool
  | .sessionEnd _ _ => true
  | _ => false

/-- Recognise `status` events. -/
def ReefEvent.isStatusEv : ReefEvent → Bool
  | .statusEv _ _ _ => true
  | _ => false

/-- Recognise `session.new` events. -/
def ReefEvent.isSessionNew : ReefEvent → Bool
  | .sessionNew _ _ _ => true
  | _ => false

/-- In-process orchestrator state: the two registries of running sessions
(agent.ts `runningSessions` resp. SessionManager's `sdkSessions` /
`providerSessions` maps, modelled by their key sets), the observable
external effects of `abortController.abort()` and `killTmuxSession`
(recorded as lists), the durable rows (db.ts store) and the append-only
log of events published on the bus (events.ts). -/
structure OrchState where
  sdkSessions : List String := []
  providerSessions : List String := []
  abortedIds : List String := []
  killedTmux : List String := []
  rows : List SessionRow := []
  events : List ReefEvent := []
deriving DecidableEq, Repr

/-- Map-key deletion (`Map.delete` / `Map.prototype.delete`): a JS map holds
each key at most once, so deletion removes every occurrence. -/
def mapDelete (id : String) (l : List String) : List String :=
  l.filter (fun x => x ≠ id)

/-- events.ts `emitReefEvent`: publish one event on the process-wide bus. -/
def emitReefEvent (e : ReefEvent) (st : OrchState) : OrchState :=
  { st with events := st.events ++ [e] }

/-- db.ts `insertSession`. -/
def insertSession (row : SessionRow) (st : OrchState) : OrchState :=
  { st with rows := st.rows ++ [row] }

/-- db.ts `getSession`: first row with the given id. -/
def getSession (id : String) (st : OrchState) : Option SessionRow :=
  st.rows.find? (fun r => r.id = id)

/-- db.ts `updateSession(id, {status})` — the only update shape the
orchestrator uses; refreshes `updated_at`. -/
def updateSessionStatus (id : String) (s : Status) (now : String)
    (st : OrchState) : OrchState :=
  { st with rows := st.rows.map (fun r =>
      if r.id = id then { r with status := s, updated_at := now } else r) }

/-- db.ts `appendOutput`. -/
def appendOutput (id : String) (line : String) (now : String)
    (st : OrchState) : OrchState :=
  { st with rows := st.rows.map (fun r =>
      if r.id = id then { r with output := r.output ++ [line], updated_at := now }
      else r) }

end Reef

namespace Reef.Agent

/-- agent.ts `kill(sessionId, row)`: abort+unsubscribe+drop any running SDK
session, kill any recorded tmux session, then unconditionally emit a
`session.end` event with reason "killed". -/
def kill (sessionId : String) (row : SessionRow) (st : OrchState) : OrchState :=
  let st1 :=
    if st.sdkSessions.contains sessionId then
      { st with sdkSessions := mapDelete sessionId st.sdkSessions,
                abortedIds := st.abortedIds ++ [sessionId] }
    else st
  let st2 :=
    match row.tmux_session with
    | some h => { st1 with killedTmux := st1.killedTmux ++ [h] }
    | none => st1
  emitReefEvent (.sessionEnd sessionId "killed") st2

/-- agent.ts `isAlive(sessionId, row)`: backend-dependent liveness.
`tmuxExists` is the external `tmux has-session` query. -/
def isAlive (tmuxExists : String → Bool) (st : OrchState)
    (sessionId : String) (row : SessionRow) : Bool :=
  if row.backend = Backend.sdk then st.sdkSessions.contains sessionId
  else
    match row.tmux_session with
    | some h => tmuxExists h
    | none => false

end Reef.Agent

namespace Reef.SessionManager

/-- SessionManager.kill: like agent.ts `kill` but additionally aborts and
deregisters a registry-routed provider run; then unconditionally emits the
`session.end` "killed" event. -/
def kill (sessionId : String) (row : SessionRow) (st : OrchState) : OrchState :=
  let st1 :=
    if st.sdkSessions.contains sessionId then
      { st with sdkSessions := mapDelete sessionId st.sdkSessions,
                abortedIds := st.abortedIds ++ [sessionId] }
    else st
  let st2 :=
    if st1.providerSessions.contains sessionId then
      { st1 with providerSessions := mapDelete sessionId st1.providerSessions,
                 abortedIds := st1.abortedIds ++ [sessionId] }
    else st1
  let st3 :=
    match row.tmux_session with
    | some h => { st2 with killedTmux := st2.killedTmux ++ [h] }
    | none => st2
  emitReefEvent (.sessionEnd sessionId "killed") st3

/-- SessionManager.isAlive: sdk → sdk registry, tmux handle → external
query, otherwise provider registry. -/
def isAlive (tmuxExists : String → Bool) (st : OrchState)
    (sessionId : String) (row : SessionRow) : Bool :=
  if row.backend = Backend.sdk then st.sdkSessions.contains sessionId
  else
    match row.tmux_session with
    | some h => tmuxExists h
    | none => st.providerSessions.contains sessionId

end Reef.SessionManager

namespace Reef

/-- providers/index.ts registry contents: exactly the two reference
providers are registered (`registry.set('openai', ...)`,
`registry.set('google', ...)`). -/
inductive RegisteredProvider
  | openai
  | google
deriving DecidableEq, Repr

/-- providers/index.ts `getProvider`. -/
def getProvider (name : String) : Option RegisteredProvider :=
  if name = "openai" then some .openai
  else if name = "google" then some .google
  else none

/-- provider-router.ts `DEFAULT_MODELS` lookup with the `|| 'unknown'`
fallback. -/
def defaultModel (p : String) : String :=
  if p = "openai" then "gpt-4o"
  else if p = "google" then "gemini-2.5-flash"
  else "unknown"

/-- SessionManager.createProviderRow: insert the durable row eagerly with
status running and emit the `session.new` event. -/
def createProviderRow (sessionId task provider model now : String)
    (st : OrchState) : OrchState × SessionRow :=
  let backend : Backend := if provider = "openai" then .openai else .google
  let row : SessionRow :=
    { id := sessionId, task := task, status := .running, backend := backend,
      provider := some provider, model := some model,
      created_at := now, updated_at := now, output := [] }
  (emitReefEvent (.sessionNew sessionId task backend) (insertSession row st), row)

end Reef

namespace Reef.ProviderRouter

/-- provider-router.ts `ProviderRouter.route`, synchronous part: resolve
model, look the provider up in the registry (throw `No provider registered
for: <name>` if absent — before any row is created), create the durable
row + `session.new` event, register the abort handle.  The asynchronous
run outcome is handled by `routeCompleted` / `routeRejected` below. -/
def route (sessionId task provider : String) (model : Option String)
    (now : String) (st : OrchState) : OrchState × Except String SessionRow :=
  let resolvedModel := model.getD (defaultModel provider)
  match getProvider provider with
  | none => (st, .error ("No provider registered for: " ++ provider))
  | some _ =>
      let (st1, row) := createProviderRow sessionId task provider resolvedModel now st
      let st2 := { st1 with providerSessions := st1.providerSessions ++ [sessionId] }
      (st2, .ok row)

/-- provider-router.ts route `.then` continuation: natural completion of a
registry-routed run. -/
def routeCompleted (sessionId now : String) (st : OrchState) : OrchState :=
  let st1 := updateSessionStatus sessionId .completed now st
  let st2 := emitReefEvent (.statusEv sessionId .completed none) st1
  let st3 := emitReefEvent (.sessionEnd sessionId "completed") st2
  { st3 with providerSessions := mapDelete sessionId st3.providerSessions }

/-- provider-router.ts route `.catch` continuation: unhandled rejection of
a registry-routed run. -/
def routeRejected (sessionId errMsg now : String) (st : OrchState) : OrchState :=
  let msg := "Error: " ++ errMsg
  let st1 := appendOutput sessionId msg now st
  let st2 := emitReefEvent (.output sessionId msg) st1
  let st3 := updateSessionStatus sessionId .error now st2
  let st4 := emitReefEvent (.statusEv sessionId .error (some errMsg)) st3
  { st4 with providerSessions := mapDelete sessionId st4.providerSessions }

end Reef.ProviderRouter

namespace Reef.Agent

/-- agent.ts `SpawnOptions`. -/
structure SpawnOptions where
  task : String
  workdir : Option String := none
  model : Option String := none
  provider : Option String := none
  forceBackend : Option Backend := none
deriving Repr

/-- agent.ts `SpawnResult`. -/
structure SpawnResult where
  sessionId : String
  backend : Backend
  row : SessionRow
deriving Repr

/-- agent.ts `spawnProviderAgent`, synchronous part: resolve the default
model, insert the row (status running, backend = provider name) and emit
`session.new`; the runner outcome is `providerRunResolved` /
`providerRunRejected`. -/
def spawnProviderAgent (sessionId : String) (opts : SpawnOptions)
    (now : String) (provider : String) (st : OrchState) :
    OrchState × SpawnResult :=
  let model := opts.model.getD (defaultModel provider)
  let backend : Backend := if provider = "openai" then .openai else .google
  let row : SessionRow :=
    { id := sessionId, task := opts.task, status := .running,
      backend := backend, provider := some provider, model := some model,
      created_at := now, updated_at := now, output := [] }
  let st1 := insertSession row st
  let st2 := emitReefEvent (.sessionNew sessionId opts.task backend) st1
  (st2, { sessionId := sessionId, backend := backend, row := row })

/-- agent.ts `spawnProviderAgent` runner `.then` branch. -/
def providerRunResolved (sessionId now : String) (st : OrchState) : OrchState :=
  let st1 := updateSessionStatus sessionId .completed now st
  let st2 := emitReefEvent (.statusEv sessionId .completed none) st1
  emitReefEvent (.sessionEnd sessionId "completed") st2

/-- agent.ts `spawnProviderAgent` runner `.catch` branch: append the
failure text as an output chunk, emit an output event, set status=error,
emit a status event — and nothing else. -/
def providerRunRejected (sessionId errMsg now : String) (st : OrchState) :
    OrchState :=
  let msg := "Error: " ++ errMsg
  let st1 := appendOutput sessionId msg now st
  let st2 := emitReefEvent (.output sessionId msg) st1
  let st3 := updateSessionStatus sessionId .error now st2
  emitReefEvent (.statusEv sessionId .error (some errMsg)) st3

/-- agent.ts `spawnTmuxFallback`: spawn the external tmux session (its
handle is the `tmuxHandle` oracle value), insert the row with
backend=tmux, emit `session.new`. -/
def spawnTmuxFallback (tmuxHandle : String) (sessionId : String)
    (opts : SpawnOptions) (now : String) (st : OrchState) :
    OrchState × SpawnResult :=
  let row : SessionRow :=
    { id := sessionId, task := opts.task, status := .running,
      backend := .tmux, tmux_session := some tmuxHandle,
      created_at := now, updated_at := now, output := [] }
  let st1 := insertSession row st
  let st2 := emitReefEvent (.sessionNew sessionId opts.task .tmux) st1
  (st2, { sessionId := sessionId, backend := .tmux, row := row })

/-- agent.ts `spawnSdkAgent`.  `sdkSetup` stands for the fallible setup
prefix (`getModel` + `createAgentSession`): `some modelId` when it
succeeds, `none` when it throws — in which case the catch branch falls
back to tmux.  Both fallible steps precede the row insert in the source,
so on failure nothing was inserted or emitted yet. -/
def spawnSdkAgent (sdkSetup : Option String) (tmuxHandle : String)
    (sessionId : String) (opts : SpawnOptions) (now : String)
    (st : OrchState) : OrchState × SpawnResult :=
  match sdkSetup with
  | none => spawnTmuxFallback tmuxHandle sessionId opts now st
  | some modelId =>
      let row : SessionRow :=
        { id := sessionId, task := opts.task, status := .running,
          backend := .sdk, model := some modelId,
          created_at := now, updated_at := now, output := [] }
      let st1 := insertSession row st
      let st2 := emitReefEvent (.sessionNew sessionId opts.task .sdk) st1
      let st3 := { st2 with sdkSessions := st2.sdkSessions ++ [sessionId] }
      (st3, { sessionId := sessionId, backend := .sdk, row := row })

/-- agent.ts `spawn`: route openai/google to the provider path, otherwise
pick sdk or tmux (forced backend wins, else sdk when the Pi SDK loaded). -/
def spawn (piSdkAvailable : Bool) (sdkSetup : Option String)
    (tmuxHandle : String) (sessionId : String) (now : String)
    (opts : SpawnOptions) (st : OrchState) : OrchState × SpawnResult :=
  let provider := opts.provider.getD "anthropic"
  if provider = "openai" then spawnProviderAgent sessionId opts now "openai" st
  else if provider = "google" then spawnProviderAgent sessionId opts now "google" st
  else
    let backend := opts.forceBackend.getD (if piSdkAvailable then .sdk else .tmux)
    if backend = .sdk then spawnSdkAgent sdkSetup tmuxHandle sessionId opts now st
    else spawnTmuxFallback tmuxHandle sessionId opts now st

end Reef.Agent

namespace Reef.Api

/-- api.ts `DELETE /sessions/:id` handler: 404 when the row is absent,
otherwise `kill(session.id, session)` followed by
`updateSession(id, {status: 'stopped'})`.  Returns whether it succeeded. -/
def deleteSessionHandler (now : String) (id : String) (st : OrchState) :
    OrchState × Bool :=
  match getSession id st with
  | none => (st, false)
  | some row =>
      let st1 := Agent.kill id row st
      let st2 := updateSessionStatus id .stopped now st1
      (st2, true)

/-- api.ts `GET /sessions` handler: list all rows, and for each row that
says running but whose backend is not alive, write status=stopped to the
store and return the patched copy. -/
def getSessionsHandler (tmuxExists : String → Bool) (now : String)
    (st : OrchState) : OrchState × List SessionRow :=
  let dead := fun (s : SessionRow) =>
    s.status = Status.running ∧ Agent.isAlive tmuxExists st s.id s = false
  let response := st.rows.map (fun s =>
    if dead s then { s with status := .stopped } else s)
  let rows2 := st.rows.map (fun s =>
    if dead s then { s with status := .stopped, updated_at := now } else s)
  ({ st with rows := rows2 }, response)

end Reef.Api

namespace Reef

/-- ws.ts `ClientState` plus the connection's readyState (`openConn` =
`readyState === WebSocket.OPEN`).  An empty `subscriptions` set means
"all sessions". -/
structure ClientState where
  subscriptions : List String := []
  openConn : Bool := true
deriving DecidableEq, Repr

/-- ws.ts broadcast listener, per-client predicate: skip non-open
connections; deliver when the filter set is empty or contains the event's
session id. -/
def wsDelivers (c : ClientState) (e : ReefEvent) : Bool :=
  c.openConn && (c.subscriptions.isEmpty || c.subscriptions.contains e.sid)

/-- ws.ts broadcast listener over the whole client map: the sub-list of
clients the event is written to. -/
def broadcastReef (clientList : List ClientState) (e : ReefEvent) :
    List ClientState :=
  clientList.filter (fun c => wsDelivers c e)

/-- ws.ts `handleClientMessage` case 'subscribe': `Set.add`. -/
def clientSubscribe (c : ClientState) (sessionId : String) : ClientState :=
  if c.subscriptions.contains sessionId then c
  else { c with subscriptions := c.subscriptions ++ [sessionId] }

/-- ws.ts `handleClientMessage` case 'unsubscribe': `Set.delete`. -/
def clientUnsubscribe (c : ClientState) (sessionId : String) : ClientState :=
  { c with subscriptions := mapDelete sessionId c.subscriptions }

/-- ws.ts `handleClientMessage` case 'subscribe_all': `Set.clear`. -/
def clientSubscribeAll (c : ClientState) : ClientState :=
  { c with subscriptions := [] }

end Reef

namespace Reef

/-- Outcome of `execAsync(command, {cwd, timeout: 30000})`: either the
combined streams of a successful exit, or the thrown error (message plus
whatever partial streams the error object carries — also the shape of a
30s timeout). -/
inductive ExecOutcome
  | success (stdout stderr : String)
  | failure (message stdout stderr : String)
deriving DecidableEq, Repr

/-- JS `s.slice(0, 4000)`. -/
def jsSlice4000 (s : String) : String :=
  String.mk (s.data.take 4000)

/-- The tool-result text both reference providers compute: success →
`(stdout + stderr).slice(0, 4000)`; failure → ``(`Error: ${message}\n` +
stdout + stderr).slice(0, 4000)``. -/
def execResult : ExecOutcome → String
  | .success out err => jsSlice4000 (out ++ err)
  | .failure msg out err =>
      jsSlice4000 ("Error: " ++ msg ++ "\n" ++ (out ++ err))

/-- One OpenAI tool call (`tc.id`, `tc.function.name`, the parsed
`args.command`). -/
structure ToolCall where
  callId : String
  name : String
  command : String
deriving DecidableEq, Repr

/-- One OpenAI chat-completion reply message (`choice.message`). -/
structure OAReply where
  content : Option String := none
  tool_calls : List ToolCall := []
deriving DecidableEq, Repr

/-- Conversation entry for the OpenAI provider. -/
inductive OAMessage
  | system (content : String)
  | user (content : String)
  | assistant (content : Option String) (tool_calls : List ToolCall)
  | tool (tool_call_id : String) (content : String)
deriving DecidableEq, Repr

/-- Accumulated run state of the OpenAI loop: the `turns` counter, the
`messages` conversation, and the two sinks (`ctx.onOutput` chunks and
`ctx.onEvent` events). -/
structure OARun where
  turns : Nat := 0
  messages : List OAMessage := []
  chunks : List String := []
  events : List ReefEvent := []
deriving DecidableEq, Repr

/-- The per-tool-call body shared verbatim by both reference providers
(tool.start event, `⚡ name(command)` chunk, `execAsync` with the result
truncated by `execResult`, result chunk, tool.end event, result output
event): returns (appended chunks, appended events, tool result text). -/
def runShellTool (sessionId : String) (execFn : String → ExecOutcome)
    (name command : String) : List String × List ReefEvent × String :=
  let result := execResult (execFn command)
  ( ["⚡ " ++ name ++ "(" ++ command ++ ")", result],
    [ .toolStart sessionId name command,
      .toolEnd sessionId name,
      .output sessionId result ],
    result )

/-- Apply one OpenAI tool call to the run state (loop body lines handling
`msg.tool_calls`): run the shell tool and push the truncated result back
into the conversation as a role:'tool' message. -/
def oaApplyToolCall (sessionId : String) (execFn : String → ExecOutcome)
    (s : OARun) (tc : ToolCall) : OARun :=
  let (cs, es, result) := runShellTool sessionId execFn tc.name tc.command
  { s with chunks := s.chunks ++ cs,
           events := s.events ++ es,
           messages := s.messages ++ [.tool tc.callId result] }

/-- openaiProvider.run while-loop (`while (turns < maxTurns)`), with
`fuel = maxTurns - turns`.  `replies n` is the chat-completion reply to
the (n+1)-st request (`none` = response carried no message);
`aborted n` is `ctx.signal.aborted` as observed at the check before the
(n+1)-st turn. -/
def openaiLoop (sessionId : String) (execFn : String → ExecOutcome)
    (replies : Nat → Option OAReply) (aborted : Nat → Bool) :
    Nat → OARun → OARun
  | 0, s => s
  | fuel + 1, s =>
      if aborted s.turns then s
      else
        let idx := s.turns
        let s1 := { s with turns := s.turns + 1 }
        match replies idx with
        | none => s1
        | some msg =>
            let s2 := { s1 with
              messages := s1.messages ++ [.assistant msg.content msg.tool_calls] }
            let s3 :=
              match msg.content with
              | some c =>
                  if c = "" then s2
                  else { s2 with chunks := s2.chunks ++ [c],
                                 events := s2.events ++ [.output sessionId c] }
              | none => s2
            if msg.tool_calls.isEmpty then s3
            else
              openaiLoop sessionId execFn replies aborted fuel
                (msg.tool_calls.foldl (oaApplyToolCall sessionId execFn) s3)

/-- openaiProvider.run (part_002): throw when `OPENAI_API_KEY` is unset,
otherwise seed the conversation with the system prompt and the task and
run the loop with `maxTurns = 10`. -/
def openaiRun (apiKeySet : Bool) (sessionId task : String)
    (execFn : String → ExecOutcome) (replies : Nat → Option OAReply)
    (aborted : Nat → Bool) : Except String OARun :=
  if !apiKeySet then .error "OPENAI_API_KEY not set"
  else
    .ok (openaiLoop sessionId execFn replies aborted 10
      { turns := 0,
        messages :=
          [ .system "You are a helpful assistant. You can execute shell commands using the shell tool.",
            .user task ],
        chunks := [], events := [] })

/-- One Gemini `functionCall` part payload. -/
structure GCall where
  name : String
  command : String
deriving DecidableEq, Repr

/-- One Gemini content part: text part, functionCall part, or the
functionResponse parts the loop feeds back (name, result). -/
structure GPart where
  text : Option String := none
  functionCall : Option GCall := none
  functionResponse : Option (String × String) := none
deriving DecidableEq, Repr

/-- One Gemini conversation entry (`{role, parts}`). -/
structure GContent where
  role : String
  parts : List GPart
deriving DecidableEq, Repr

/-- Accumulated run state of the Google loop. -/
structure GRun where
  turns : Nat := 0
  contents : List GContent := []
  chunks : List String := []
  events : List ReefEvent := []
deriving DecidableEq, Repr

/-- Process one part of a Gemini candidate (the `for (const part of
candidate.content.parts)` body): emit any text, and for a functionCall run
the shell tool and collect a functionResponse part.  The second component
accumulates `toolResponseParts`. -/
def gApplyPart (sessionId : String) (execFn : String → ExecOutcome)
    (acc : GRun × List GPart) (part : GPart) : GRun × List GPart :=
  let (s, resp) := acc
  let s1 :=
    match part.text with
    | some t =>
        if t = "" then s
        else { s with chunks := s.chunks ++ [t],
                      events := s.events ++ [.output sessionId t] }
    | none => s
  match part.functionCall with
  | none => (s1, resp)
  | some fc =>
      let (cs, es, result) := runShellTool sessionId execFn fc.name fc.command
      ( { s1 with chunks := s1.chunks ++ cs, events := s1.events ++ es },
        resp ++ [{ functionResponse := some (fc.name, result) }] )

/-- googleProvider.run while-loop (part_001), `fuel = maxTurns - turns`.
`replies n` is the candidate's parts list of the (n+1)-st
`generateContent` call (`none` = no candidate/content/parts → break). -/
def googleLoop (sessionId : String) (execFn : String → ExecOutcome)
    (replies : Nat → Option (List GPart)) (aborted : Nat → Bool) :
    Nat → GRun → GRun
  | 0, s => s
  | fuel + 1, s =>
      if aborted s.turns then s
      else
        let idx := s.turns
        let s1 := { s with turns := s.turns + 1 }
        match replies idx with
        | none => s1
        | some parts =>
            let s2 := { s1 with
              contents := s1.contents ++ [{ role := "model", parts := parts }] }
            let (s3, toolResponseParts) :=
              parts.foldl (gApplyPart sessionId execFn) (s2, [])
            if (parts.any (fun p => p.functionCall.isSome)) &&
               !toolResponseParts.isEmpty then
              googleLoop sessionId execFn replies aborted fuel
                { s3 with contents :=
                    s3.contents ++ [{ role := "user", parts := toolResponseParts }] }
            else s3

/-- googleProvider.run (part_001): throw when neither `GOOGLE_API_KEY` nor
`GEMINI_API_KEY` is set, otherwise seed the conversation with the task and
run the loop with `maxTurns = 10`. -/
def googleRun (apiKeySet : Bool) (sessionId task : String)
    (execFn : String → ExecOutcome) (replies : Nat → Option (List GPart))
    (aborted : Nat → Bool) : Except String GRun :=
  if !apiKeySet then .error "GOOGLE_API_KEY or GEMINI_API_KEY not set"
  else
    .ok (googleLoop sessionId execFn replies aborted 10
      { turns := 0,
        contents := [{ role := "user", parts := [{ text := some task }] }],
        chunks := [], events := [] })

end Reef

namespace Reef

/-- Deleting a key from a map removes it. -/
theorem contains_mapDelete (id : String) (l : List String) :
    (mapDelete id l).contains id = false := by
  simp [mapDelete, List.contains, List.elem_eq_mem, List.mem_filter]

/-- Keys other than the deleted one survive `mapDelete`. -/
theorem mem_mapDelete_of_ne {x id : String} {l : List String}
    (hx : x ∈ l) (hne : x ≠ id) : x ∈ mapDelete id l := by
  simp [mapDelete, List.mem_filter, hx, hne]

end Reef

namespace Reef

/-- C5: a spawn request naming a registry-routed provider that is not
registered fails synchronously with the UnknownProvider error
(`No provider registered for: <name>`), leaving the state untouched —
no durable row is created and no event is emitted. -/
theorem route_unknown_provider_rejects_without_effects
    (sessionId task provider : String) (model : Option String)
    (now : String) (st : OrchState)
    (h : getProvider provider = none) :
    ProviderRouter.route sessionId task provider model now st =
      (st, Except.error ("No provider registered for: " ++ provider)) ∧
    (ProviderRouter.route sessionId task provider model now st).1.rows = st.rows ∧
    (ProviderRouter.route sessionId task provider model now st).1.events = st.events := by
  refine ⟨?_, ?_, ?_⟩ <;> simp [ProviderRouter.route, h]

/-- C5 witness: the provider name "carbon" is not registered, and routing
to it fails with the state unchanged. -/
theorem route_unknown_provider_witness :
    ProviderRouter.route "s1" "demo" "carbon" none "t0" {} =
      ({}, Except.error ("No provider registered for: " ++ "carbon")) ∧
    (ProviderRouter.route "s1" "demo" "carbon" none "t0" {}).1.rows = ({} : OrchState).rows ∧
    (ProviderRouter.route "s1" "demo" "carbon" none "t0" {}).1.events = ({} : OrchState).events :=
  route_unknown_provider_rejects_without_effects "s1" "demo" "carbon" none "t0" {} rfl

/-- C7: for any published event and an open subscriber connection, an
empty filter set receives the event whatever its session id, and a filter
set of exactly `{a}` receives it precisely when the event's session id is
`a`. -/
theorem ws_filter_delivery (c : ClientState) (e : ReefEvent) (a : String)
    (hopen : c.openConn = true) :
    (c.subscriptions = [] → wsDelivers c e = true) ∧
    (c.subscriptions = [a] → (wsDelivers c e = true ↔ e.sid = a)) := by
  constructor
  · intro h
    simp [wsDelivers, hopen, h]
  · intro h
    simp [wsDelivers, hopen, h, List.contains, List.elem_eq_mem, eq_comm]

/-- C7 witness: an unfiltered open subscriber receives an event for "B",
and for a subscriber filtered to {"A"} delivery of that event is
equivalent to its session id being "A". -/
theorem ws_filter_delivery_witness :
    wsDelivers (ClientState.mk [] true) (.output "B" "x") = true ∧
    (wsDelivers (ClientState.mk ["A"] true) (.output "B" "x") = true ↔
      (ReefEvent.output "B" "x").sid = "A") :=
  ⟨(ws_filter_delivery (ClientState.mk [] true) (.output "B" "x") "A" rfl).1 rfl,
   (ws_filter_delivery (ClientState.mk ["A"] true) (.output "B" "x") "A" rfl).2 rfl⟩

/-- C10: the GET /sessions handler reconciles liveness into durable state:
every session it returns with status=running is alive per `isAlive` at
that moment, and every stored row that said running while its backend was
dead has been rewritten to status=stopped in the store. -/
theorem get_sessions_reconciles_liveness (tmuxExists : String → Bool)
    (now : String) (st : OrchState) :
    (∀ s ∈ (Api.getSessionsHandler tmuxExists now st).2,
        s.status = Status.running → Agent.isAlive tmuxExists st s.id s = true) ∧
    (∀ r ∈ st.rows, r.status = Status.running →
        Agent.isAlive tmuxExists st r.id r = false →
        { r with status := Status.stopped, updated_at := now } ∈
          (Api.getSessionsHandler tmuxExists now st).1.rows) := by
  constructor
  · intro s hs hrun
    simp only [Api.getSessionsHandler, List.mem_map] at hs
    obtain ⟨r, hr, hfr⟩ := hs
    by_cases hd : r.status = Status.running ∧ Agent.isAlive tmuxExists st r.id r = false
    · rw [if_pos hd] at hfr
      rw [← hfr] at hrun
      simp at hrun
    · rw [if_neg hd] at hfr
      subst hfr
      rcases Bool.eq_false_or_eq_true (Agent.isAlive tmuxExists st r.id r) with hb | hb
      · exact hb
      · exact absurd ⟨hrun, hb⟩ hd

  · intro r hr h1 h2
    have hd : r.status = Status.running ∧ Agent.isAlive tmuxExists st r.id r = false :=
      ⟨h1, h2⟩
    simp only [Api.getSessionsHandler, List.mem_map]
    exact ⟨r, hr, by rw [if_pos hd]⟩

end Reef

namespace Reef

/-- Demo row for the reconciliation witness: says running, backed by a
registry-routed provider, with no live backend. -/
def c10Row : SessionRow :=
  { id := "w1", task := "t", status := .running, backend := .openai,
    provider := some "openai", model := some "gpt-4o",
    created_at := "t0", updated_at := "t0", output := [] }

/-- Demo store for the reconciliation witness. -/
def c10State : OrchState := { rows := [c10Row] }

/-- C10 witness: a stored running-but-dead session is rewritten to
status=stopped by the listing handler. -/
theorem get_sessions_reconciles_liveness_witness :
    { c10Row with status := Status.stopped, updated_at := "t9" } ∈
      (Api.getSessionsHandler (fun _ => false) "t9" c10State).1.rows :=
  (get_sessions_reconciles_liveness (fun _ => false) "t9" c10State).2 c10Row
    (by simp [c10State]) rfl rfl

/-- C6: when the Pi SDK setup of an anthropic spawn fails, the spawn call
still succeeds and transparently substitutes the tmux backend: the
returned session row and result report backend=tmux, the durable store
gains exactly that row, and exactly one `session.new` event (and nothing
else — in particular no status/error event) is emitted. -/
theorem spawn_sdk_setup_failure_falls_back_to_tmux
    (tmuxHandle sessionId now : String) (opts : Agent.SpawnOptions)
    (st : OrchState)
    (hprov : opts.provider = none ∨ opts.provider = some "anthropic")
    (hforce : opts.forceBackend = none) :
    (Agent.spawn true none tmuxHandle sessionId now opts st).2.backend = Backend.tmux ∧
    (Agent.spawn true none tmuxHandle sessionId now opts st).2.row.backend = Backend.tmux ∧
    (Agent.spawn true none tmuxHandle sessionId now opts st).1.rows =
      st.rows ++ [(Agent.spawn true none tmuxHandle sessionId now opts st).2.row] ∧
    (Agent.spawn true none tmuxHandle sessionId now opts st).1.events =
      st.events ++ [ReefEvent.sessionNew sessionId opts.task Backend.tmux] := by
  have hp : opts.provider.getD "anthropic" = "anthropic" := by
    rcases hprov with h | h <;> simp [h]
  refine ⟨?_, ?_, ?_, ?_⟩ <;>
    simp [Agent.spawn, hp, hforce, Agent.spawnSdkAgent, Agent.spawnTmuxFallback,
      insertSession, emitReefEvent]

/-- C6 witness: concrete fallback spawn. -/
theorem spawn_sdk_setup_failure_witness :
    (Agent.spawn true none "reef-ab" "s6" "t0" { task := "demo" } {}).2.backend = Backend.tmux ∧
    (Agent.spawn true none "reef-ab" "s6" "t0" { task := "demo" } {}).2.row.backend = Backend.tmux ∧
    (Agent.spawn true none "reef-ab" "s6" "t0" { task := "demo" } {}).1.rows =
      ({} : OrchState).rows ++ [(Agent.spawn true none "reef-ab" "s6" "t0" { task := "demo" } {}).2.row] ∧
    (Agent.spawn true none "reef-ab" "s6" "t0" { task := "demo" } {}).1.events =
      ({} : OrchState).events ++ [ReefEvent.sessionNew "s6" "demo" Backend.tmux] :=
  spawn_sdk_setup_failure_falls_back_to_tmux "reef-ab" "s6" "t0" { task := "demo" } {}
    (Or.inl rfl) rfl

end Reef

namespace Reef

/-- Demo row for the provider-failure counterexample. -/
def c2Row : SessionRow :=
  { id := "s1", task := "demo", status := .running,
    backend := .openai, provider := some "openai",
    model := some "gpt-4o", created_at := "t0",
    updated_at := "t0", output := [] }

/-- Demo state for the provider-failure counterexample: one running
registry-routed session. -/
def c2State : OrchState :=
  { providerSessions := ["s1"], rows := [c2Row] }

/-- C2 counterexample: when a registry-routed run rejects, the events the
orchestrator emits are exactly an output event and a status event — no
end-session event is emitted on the failure path, contradicting the
claimed "status event followed by an end-session event". -/
theorem provider_failure_no_session_end_counterexample :
    (ProviderRouter.routeRejected "s1" "boom" "t1" c2State).events =
      [ReefEvent.output "s1" "Error: boom",
       ReefEvent.statusEv "s1" Status.error (some "boom")] ∧
    (ProviderRouter.routeRejected "s1" "boom" "t1" c2State).events.filter
      ReefEvent.isSessionEnd = [] ∧
    (Agent.providerRunRejected "s1" "boom" "t1" c2State).events.filter
      ReefEvent.isSessionEnd = [] := by
  refine ⟨rfl, rfl, rfl⟩

/-- C2 amended: on an unhandled failure of a registry-routed run, the
orchestrator appends the failure text `Error: <message>` as an output
chunk, emits an output event carrying it, updates the durable row to
status=error, and emits a status event carrying the error message — but
no end-session event is emitted on the failure path (in the router
variant the session is also deregistered). -/
theorem provider_failure_effects (sessionId errMsg now : String)
    (st : OrchState) :
    (ProviderRouter.routeRejected sessionId errMsg now st).events =
      st.events ++
        [ReefEvent.output sessionId ("Error: " ++ errMsg),
         ReefEvent.statusEv sessionId Status.error (some errMsg)] ∧
    (Agent.providerRunRejected sessionId errMsg now st).events =
      st.events ++
        [ReefEvent.output sessionId ("Error: " ++ errMsg),
         ReefEvent.statusEv sessionId Status.error (some errMsg)] ∧
    (∀ r ∈ st.rows, r.id = sessionId →
        { r with status := Status.error,
                 output := r.output ++ ["Error: " ++ errMsg],
                 updated_at := now } ∈
          (ProviderRouter.routeRejected sessionId errMsg now st).rows) ∧
    (ProviderRouter.routeRejected sessionId errMsg now st).providerSessions =
      mapDelete sessionId st.providerSessions := by
  refine ⟨?_, ?_, ?_, ?_⟩
  · simp [ProviderRouter.routeRejected, appendOutput, emitReefEvent,
      updateSessionStatus]
  · simp [Agent.providerRunRejected, appendOutput, emitReefEvent,
      updateSessionStatus]
  · intro r hr hid
    simp only [ProviderRouter.routeRejected, appendOutput, emitReefEvent,
      updateSessionStatus, List.map_map, List.mem_map]
    refine ⟨r, hr, ?_⟩
    simp [hid]
  · simp [ProviderRouter.routeRejected, appendOutput, emitReefEvent,
      updateSessionStatus]

/-- C2 witness: concrete rejection — the durable row of the failed session
is now the error row with the failure text appended. -/
theorem provider_failure_effects_witness :
    { c2Row with status := Status.error,
                 output := c2Row.output ++ ["Error: " ++ "boom"],
                 updated_at := "t1" } ∈
      (ProviderRouter.routeRejected "s1" "boom" "t1" c2State).rows :=
  (provider_failure_effects "s1" "boom" "t1" c2State).2.2.1 c2Row
    (by simp [c2State]) rfl

end Reef

namespace Reef

/-- A terminal row with no live handle, for the idempotent-kill
counterexample. -/
def c4Row : SessionRow :=
  { id := "ghost", task := "old", status := .stopped, backend := .openai,
    provider := some "openai", created_at := "t0", updated_at := "t0",
    output := [] }

/-- C4 counterexample: killing a session id that is registered nowhere
(and whose row carries no tmux handle) still emits a `session.end` event
with reason "killed" — the kill is not event-silent, in both the agent.ts
and the SessionManager variant. -/
theorem kill_unknown_emits_event_counterexample :
    (SessionManager.kill "ghost" c4Row { }).events =
      [ReefEvent.sessionEnd "ghost" "killed"] ∧
    (Agent.kill "ghost" c4Row { }).events =
      [ReefEvent.sessionEnd "ghost" "killed"] ∧
    ({ } : OrchState).events = [] := by
  refine ⟨rfl, rfl, rfl⟩

/-- C4 amended: killing a session id that is not registered as running
(nonexistent or already terminal) with no recorded tmux handle changes no
state — registries, rows, abort/tmux effects all unchanged — except that
it unconditionally emits exactly one `session.end` event with reason
"killed"; in particular it never emits more than that one event. -/
theorem kill_unregistered_only_emits_end (sessionId : String)
    (row : SessionRow) (st : OrchState)
    (h1 : st.sdkSessions.contains sessionId = false)
    (h2 : st.providerSessions.contains sessionId = false)
    (h3 : row.tmux_session = none) :
    SessionManager.kill sessionId row st =
      { st with events := st.events ++ [ReefEvent.sessionEnd sessionId "killed"] } ∧
    Agent.kill sessionId row st =
      { st with events := st.events ++ [ReefEvent.sessionEnd sessionId "killed"] } := by
  have h1' : sessionId ∉ st.sdkSessions := by simpa using h1
  have h2' : sessionId ∉ st.providerSessions := by simpa using h2
  constructor
  · simp [SessionManager.kill, h1', h2', h3, emitReefEvent]
  · simp [Agent.kill, h1', h3, emitReefEvent]

/-- C4 witness: concrete kill of an unknown id against the empty
registries. -/
theorem kill_unregistered_only_emits_end_witness :
    SessionManager.kill "ghost" c4Row { } =
      { ({ } : OrchState) with
          events := ({ } : OrchState).events ++ [ReefEvent.sessionEnd "ghost" "killed"] } ∧
    Agent.kill "ghost" c4Row { } =
      { ({ } : OrchState) with
          events := ({ } : OrchState).events ++ [ReefEvent.sessionEnd "ghost" "killed"] } :=
  kill_unregistered_only_emits_end "ghost" c4Row { } rfl rfl rfl

/-- A completed row for the terminal-finality counterexample. -/
def c1Row : SessionRow :=
  { id := "s9", task := "done", status := .completed, backend := .openai,
    provider := some "openai", model := some "gpt-4o",
    created_at := "t0", updated_at := "t0", output := [] }

/-- Store holding only the completed session `c1Row`. -/
def c1State : OrchState := { rows := [c1Row] }

/-- C1 counterexample: the session "s9" is recorded completed (terminal),
yet the DELETE /sessions/:id handler emits a further event for it — a
`session.end` with reason "killed" — contradicting "no further event is
emitted for a session after a terminal state is recorded". -/
theorem delete_terminal_session_emits_counterexample :
    c1Row.status.isTerminal = true ∧
    (Api.deleteSessionHandler "t1" "s9" c1State).1.events =
      [ReefEvent.sessionEnd "s9" "killed"] ∧
    c1State.events = [] := by
  refine ⟨rfl, rfl, rfl⟩

/-- C1 amended: once a session's status is terminal and its in-memory
handles are gone, the kill/delete path emits no status event and changes
no registry state, but invoking the delete endpoint (whose kill is
unconditional) emits exactly one further event: a `session.end` with
reason "killed" (the row is additionally rewritten to status=stopped). -/
theorem delete_terminal_session_effects (now id : String) (st : OrchState)
    (row : SessionRow)
    (hrow : getSession id st = some row)
    (hterm : row.status.isTerminal = true)
    (h1 : st.sdkSessions.contains id = false)
    (h3 : row.tmux_session = none) :
    (Api.deleteSessionHandler now id st).1.events =
      st.events ++ [ReefEvent.sessionEnd id "killed"] ∧
    (Api.deleteSessionHandler now id st).1.sdkSessions = st.sdkSessions ∧
    (Api.deleteSessionHandler now id st).1.providerSessions = st.providerSessions ∧
    (Api.deleteSessionHandler now id st).1.killedTmux = st.killedTmux ∧
    ((Api.deleteSessionHandler now id st).1.events.drop st.events.length).filter
      ReefEvent.isStatusEv = [] := by
  have h1' : id ∉ st.sdkSessions := by simpa using h1
  have hk :
      Agent.kill id row st =
        { st with events := st.events ++ [ReefEvent.sessionEnd id "killed"] } := by
    simp [Agent.kill, h1', h3, emitReefEvent]
  refine ⟨?_, ?_, ?_, ?_, ?_⟩ <;>
    simp [Api.deleteSessionHandler, hrow, hk, updateSessionStatus,
      List.drop_left, ReefEvent.isStatusEv]

/-- C1 witness: concrete delete of the completed session "s9". -/
theorem delete_terminal_session_effects_witness :
    (Api.deleteSessionHandler "t1" "s9" c1State).1.events =
      c1State.events ++ [ReefEvent.sessionEnd "s9" "killed"] ∧
    (Api.deleteSessionHandler "t1" "s9" c1State).1.sdkSessions = c1State.sdkSessions ∧
    (Api.deleteSessionHandler "t1" "s9" c1State).1.providerSessions = c1State.providerSessions ∧
    (Api.deleteSessionHandler "t1" "s9" c1State).1.killedTmux = c1State.killedTmux ∧
    ((Api.deleteSessionHandler "t1" "s9" c1State).1.events.drop c1State.events.length).filter
      ReefEvent.isStatusEv = [] :=
  delete_terminal_session_effects "t1" "s9" c1State c1Row rfl rfl rfl rfl

end Reef

namespace Reef

/-- Executing tool calls never touches the turn counter. -/
theorem oaApplyToolCall_turns (sessionId : String)
    (execFn : String → ExecOutcome) (s : OARun) (tc : ToolCall) :
    (oaApplyToolCall sessionId execFn s tc).turns = s.turns := by
  simp [oaApplyToolCall, runShellTool]

/-- Folding tool calls never touches the turn counter. -/
theorem oa_foldl_toolCalls_turns (sessionId : String)
    (execFn : String → ExecOutcome) (tcs : List ToolCall) (s : OARun) :
    (tcs.foldl (oaApplyToolCall sessionId execFn) s).turns = s.turns := by
  induction tcs generalizing s with
  | nil => rfl
  | cons tc rest ih => rw [List.foldl_cons, ih, oaApplyToolCall_turns]

/-- If the cancellation signal is already set at the loop check, the
OpenAI loop stops immediately (clean stop, no further turn). -/
theorem openaiLoop_aborted_stops (sessionId : String)
    (execFn : String → ExecOutcome) (replies : Nat → Option OAReply)
    (aborted : Nat → Bool) (fuel : Nat) (s : OARun)
    (h : aborted s.turns = true) :
    openaiLoop sessionId execFn replies aborted (fuel + 1) s = s := by
  simp [openaiLoop, h]

/-- OpenAI loop, never aborted, every reply carrying at least one tool
call: every unit of fuel is spent on a full turn. -/
theorem openaiLoop_always_tool_turns (sessionId : String)
    (execFn : String → ExecOutcome) (replies : Nat → Option OAReply)
    (aborted : Nat → Bool)
    (hab : ∀ n, aborted n = false)
    (hall : ∀ n, ∃ r, replies n = some r ∧ r.tool_calls ≠ []) :
    ∀ fuel s, (openaiLoop sessionId execFn replies aborted fuel s).turns =
      s.turns + fuel := by
  intro fuel
  induction fuel with
  | zero => intro s; simp [openaiLoop]
  | succ n ih =>
      intro s
      obtain ⟨r, hr, hrt⟩ := hall s.turns
      rw [openaiLoop, hab s.turns]
      simp only [Bool.false_eq_true, if_false, hr]
      have hne : r.tool_calls.isEmpty = false := by
        cases h : r.tool_calls with
        | nil => exact absurd h hrt
        | cons a t => rfl
      cases hc : r.content with
      | none =>
          simp only [hne, Bool.false_eq_true, if_false, ih,
            oa_foldl_toolCalls_turns]
          omega
      | some c =>
          by_cases hce : c = ""
          · simp only [hce, eq_self_iff_true, if_true, hne, Bool.false_eq_true,
              if_false, ih, oa_foldl_toolCalls_turns]
            omega
          · simp only [if_neg hce, hne, Bool.false_eq_true, if_false, ih,
              oa_foldl_toolCalls_turns]
            omega

end Reef

namespace Reef

/-- Processing a candidate part never touches the turn counter. -/
theorem gApplyPart_turns (sessionId : String) (execFn : String → ExecOutcome)
    (acc : GRun × List GPart) (p : GPart) :
    (gApplyPart sessionId execFn acc p).1.turns = acc.1.turns := by
  obtain ⟨s, resp⟩ := acc
  cases hf : p.functionCall <;> cases ht : p.text <;>
    simp [gApplyPart, runShellTool, hf, ht] <;> split <;> rfl

/-- Folding candidate parts never touches the turn counter. -/
theorem g_foldl_turns (sessionId : String) (execFn : String → ExecOutcome)
    (parts : List GPart) :
    ∀ acc, ((parts.foldl (gApplyPart sessionId execFn) acc).1).turns =
      acc.1.turns := by
  induction parts with
  | nil => intro acc; rfl
  | cons p rest ih =>
      intro acc
      rw [List.foldl_cons, ih, gApplyPart_turns]

/-- Each functionCall part contributes exactly one functionResponse part
to `toolResponseParts`. -/
theorem gApplyPart_resp_length (sessionId : String)
    (execFn : String → ExecOutcome) (acc : GRun × List GPart) (p : GPart) :
    (gApplyPart sessionId execFn acc p).2.length =
      acc.2.length + (if p.functionCall.isSome then 1 else 0) := by
  obtain ⟨s, resp⟩ := acc
  cases hf : p.functionCall <;> cases ht : p.text <;>
    simp [gApplyPart, runShellTool, hf, ht] <;> split <;> simp

/-- `toolResponseParts` collects one entry per functionCall part. -/
theorem g_foldl_resp_length (sessionId : String)
    (execFn : String → ExecOutcome) (parts : List GPart) :
    ∀ acc, ((parts.foldl (gApplyPart sessionId execFn) acc).2).length =
      acc.2.length + parts.countP (fun p => p.functionCall.isSome) := by
  induction parts with
  | nil => intro acc; simp
  | cons p rest ih =>
      intro acc
      rw [List.foldl_cons, ih, gApplyPart_resp_length, List.countP_cons]
      omega

/-- If the cancellation signal is already set at the loop check, the
Google loop stops immediately (clean stop, no further turn). -/
theorem googleLoop_aborted_stops (sessionId : String)
    (execFn : String → ExecOutcome) (replies : Nat → Option (List GPart))
    (aborted : Nat → Bool) (fuel : Nat) (s : GRun)
    (h : aborted s.turns = true) :
    googleLoop sessionId execFn replies aborted (fuel + 1) s = s := by
  simp [googleLoop, h]

/-- When some part carries a functionCall, the collected
`toolResponseParts` list is nonempty. -/
theorem g_foldl_resp_nonempty (sessionId : String)
    (execFn : String → ExecOutcome) (parts : List GPart) (s : GRun)
    (hany : parts.any (fun p => p.functionCall.isSome) = true) :
    ((parts.foldl (gApplyPart sessionId execFn) (s, [])).2).isEmpty = false := by
  have hlen := g_foldl_resp_length sessionId execFn parts (s, [])
  have hcnt : 0 < parts.countP (fun p => p.functionCall.isSome) :=
    List.countP_pos_iff.mpr (List.any_eq_true.mp hany)
  cases h : (parts.foldl (gApplyPart sessionId execFn) (s, [])).2 with
  | nil =>
      exfalso
      rw [h] at hlen
      simp at hlen
      omega
  | cons x xs => rfl

/-- Google loop, never aborted, every candidate carrying at least one
functionCall part: every unit of fuel is spent on a full turn. -/
theorem googleLoop_always_tool_turns (sessionId : String)
    (execFn : String → ExecOutcome) (replies : Nat → Option (List GPart))
    (aborted : Nat → Bool)
    (hab : ∀ n, aborted n = false)
    (hall : ∀ n, ∃ parts, replies n = some parts ∧
        parts.any (fun p => p.functionCall.isSome) = true) :
    ∀ fuel s, (googleLoop sessionId execFn replies aborted fuel s).turns =
      s.turns + fuel := by
  intro fuel
  induction fuel with
  | zero => intro s; simp [googleLoop]
  | succ n ih =>
      intro s
      obtain ⟨parts, hr, hany⟩ := hall s.turns
      rw [googleLoop, hab s.turns]
      simp only [Bool.false_eq_true, if_false, hr,
        g_foldl_resp_nonempty sessionId execFn parts _ hany, hany,
        Bool.not_false, Bool.and_true, if_true, ih, g_foldl_turns]
      omega

end Reef

namespace Reef

/-- A reply without tool calls ends the OpenAI loop after that turn. -/
theorem openaiLoop_no_tool_one_turn (sessionId : String)
    (execFn : String → ExecOutcome) (replies : Nat → Option OAReply)
    (aborted : Nat → Bool) (fuel : Nat) (s : OARun)
    (hab : aborted s.turns = false) (r : OAReply)
    (hr : replies s.turns = some r) (ht : r.tool_calls = []) :
    (openaiLoop sessionId execFn replies aborted (fuel + 1) s).turns =
      s.turns + 1 := by
  rw [openaiLoop, hab]
  simp only [Bool.false_eq_true, if_false, hr]
  cases hc : r.content with
  | none => simp [ht]
  | some c => by_cases hce : c = "" <;> simp [hce, ht]

/-- A candidate without functionCall parts ends the Google loop after
that turn. -/
theorem googleLoop_no_tool_one_turn (sessionId : String)
    (execFn : String → ExecOutcome) (replies : Nat → Option (List GPart))
    (aborted : Nat → Bool) (fuel : Nat) (s : GRun)
    (hab : aborted s.turns = false) (parts : List GPart)
    (hr : replies s.turns = some parts)
    (hany : parts.any (fun p => p.functionCall.isSome) = false) :
    (googleLoop sessionId execFn replies aborted (fuel + 1) s).turns =
      s.turns + 1 := by
  rw [googleLoop, hab]
  simp only [Bool.false_eq_true, if_false, hr, hany, Bool.false_and,
    if_false, g_foldl_turns]

/-- C8: with the cancellation signal never set and the API key present,
both reference tool-loops are turn-bounded exactly as specified: when no
reply ever carries a tool invocation the loop finishes after exactly one
turn, and when every reply carries a tool invocation it finishes after
exactly 10 turns, resolving cleanly (an `Except.ok` result, no error). -/
theorem reference_loop_turn_bounds
    (sessionId task : String) (execFn : String → ExecOutcome)
    (aborted : Nat → Bool) (hab : ∀ n, aborted n = false)
    (oaNever : Nat → Option OAReply) (r0 : OAReply)
    (hoa0 : oaNever 0 = some r0) (hoa0t : r0.tool_calls = [])
    (oaAlways : Nat → Option OAReply)
    (hoaA : ∀ n, ∃ r, oaAlways n = some r ∧ r.tool_calls ≠ [])
    (gNever : Nat → Option (List GPart)) (p0 : List GPart)
    (hg0 : gNever 0 = some p0)
    (hg0t : p0.any (fun p => p.functionCall.isSome) = false)
    (gAlways : Nat → Option (List GPart))
    (hgA : ∀ n, ∃ parts, gAlways n = some parts ∧
        parts.any (fun p => p.functionCall.isSome) = true) :
    (openaiRun true sessionId task execFn oaNever aborted).map OARun.turns =
      Except.ok 1 ∧
    (openaiRun true sessionId task execFn oaAlways aborted).map OARun.turns =
      Except.ok 10 ∧
    (googleRun true sessionId task execFn gNever aborted).map GRun.turns =
      Except.ok 1 ∧
    (googleRun true sessionId task execFn gAlways aborted).map GRun.turns =
      Except.ok 10 := by
  refine ⟨?_, ?_, ?_, ?_⟩
  · have h := openaiLoop_no_tool_one_turn sessionId execFn oaNever aborted 9
      { turns := 0,
        messages :=
          [ .system "You are a helpful assistant. You can execute shell commands using the shell tool.",
            .user task ],
        chunks := [], events := [] } (hab 0) r0 hoa0 hoa0t
    simpa [openaiRun, Except.map] using h
  · have h := openaiLoop_always_tool_turns sessionId execFn oaAlways aborted
      hab hoaA 10
      { turns := 0,
        messages :=
          [ .system "You are a helpful assistant. You can execute shell commands using the shell tool.",
            .user task ],
        chunks := [], events := [] }
    simpa [openaiRun, Except.map] using h
  · have h := googleLoop_no_tool_one_turn sessionId execFn gNever aborted 9
      { turns := 0,
        contents := [{ role := "user", parts := [{ text := some task }] }],
        chunks := [], events := [] } (hab 0) p0 hg0 hg0t
    simpa [googleRun, Except.map] using h
  · have h := googleLoop_always_tool_turns sessionId execFn gAlways aborted
      hab hgA 10
      { turns := 0,
        contents := [{ role := "user", parts := [{ text := some task }] }],
        chunks := [], events := [] }
    simpa [googleRun, Except.map] using h

/-- No-tool OpenAI reply for the turn-bound witness. -/
def c8OAReplyPlain : OAReply := { content := some "done", tool_calls := [] }

/-- Tool-calling OpenAI reply for the turn-bound witness. -/
def c8OAReplyTool : OAReply :=
  { content := none,
    tool_calls := [{ callId := "c1", name := "shell", command := "true" }] }

/-- No-tool Gemini candidate parts for the turn-bound witness. -/
def c8GPartsPlain : List GPart := [{ text := some "done" }]

/-- Tool-calling Gemini candidate parts for the turn-bound witness. -/
def c8GPartsTool : List GPart :=
  [{ functionCall := some { name := "shell", command := "true" } }]

/-- C8 witness: concrete reply streams exercising all four turn bounds. -/
theorem reference_loop_turn_bounds_witness :
    (openaiRun true "s8" "t" (fun _ => .success "" "")
        (fun _ => some c8OAReplyPlain) (fun _ => false)).map OARun.turns =
      Except.ok 1 ∧
    (openaiRun true "s8" "t" (fun _ => .success "" "")
        (fun _ => some c8OAReplyTool) (fun _ => false)).map OARun.turns =
      Except.ok 10 ∧
    (googleRun true "s8" "t" (fun _ => .success "" "")
        (fun _ => some c8GPartsPlain) (fun _ => false)).map GRun.turns =
      Except.ok 1 ∧
    (googleRun true "s8" "t" (fun _ => .success "" "")
        (fun _ => some c8GPartsTool) (fun _ => false)).map GRun.turns =
      Except.ok 10 :=
  reference_loop_turn_bounds "s8" "t" (fun _ => .success "" "")
    (fun _ => false) (fun _ => rfl)
    (fun _ => some c8OAReplyPlain) c8OAReplyPlain rfl rfl
    (fun _ => some c8OAReplyTool)
    (fun _ => ⟨c8OAReplyTool, rfl, by decide⟩)
    (fun _ => some c8GPartsPlain) c8GPartsPlain rfl rfl
    (fun _ => some c8GPartsTool)
    (fun _ => ⟨c8GPartsTool, rfl, rfl⟩)

end Reef

namespace Reef

/-- `.slice(0, 4000)` yields at most 4000 characters. -/
theorem jsSlice4000_length (s : String) : (jsSlice4000 s).length ≤ 4000 := by
  show (s.data.take 4000).length ≤ 4000
  rw [List.length_take]
  exact Nat.min_le_left _ _

/-- Every tool-result text is at most 4000 characters, on the success and
on the failure/timeout path alike. -/
theorem execResult_length (o : ExecOutcome) : (execResult o).length ≤ 4000 := by
  cases o <;> exact jsSlice4000_length _

/-- All `role:'tool'` messages of a conversation carry at most 4000
characters of content. -/
def oaMsgsBounded (ms : List OAMessage) : Prop :=
  ∀ cid c, OAMessage.tool cid c ∈ ms → c.length ≤ 4000

/-- The OpenAI tool-call body appends exactly one tool message, carrying
the truncated result. -/
theorem oaApplyToolCall_messages (sessionId : String)
    (execFn : String → ExecOutcome) (s : OARun) (tc : ToolCall) :
    (oaApplyToolCall sessionId execFn s tc).messages =
      s.messages ++ [OAMessage.tool tc.callId (execResult (execFn tc.command))] := by
  simp [oaApplyToolCall, runShellTool]

/-- Folding tool calls preserves the conversation bound. -/
theorem oa_foldl_bounded (sessionId : String)
    (execFn : String → ExecOutcome) (tcs : List ToolCall) :
    ∀ s, oaMsgsBounded s.messages →
      oaMsgsBounded ((tcs.foldl (oaApplyToolCall sessionId execFn) s).messages) := by
  induction tcs with
  | nil => intro s h; exact h
  | cons tc rest ih =>
      intro s h
      rw [List.foldl_cons]
      apply ih
      intro cid c hc
      rw [oaApplyToolCall_messages] at hc
      rcases List.mem_append.mp hc with h1 | h2
      · exact h cid c h1
      · rw [List.mem_singleton] at h2
        cases h2
        exact execResult_length _

/-- Appending a non-tool message preserves the conversation bound. -/
theorem oaMsgsBounded_append_assistant (ms : List OAMessage)
    (h : oaMsgsBounded ms) (c : Option String) (tcs : List ToolCall) :
    oaMsgsBounded (ms ++ [OAMessage.assistant c tcs]) := by
  intro cid cc hc
  rcases List.mem_append.mp hc with h1 | h2
  · exact h cid cc h1
  · rw [List.mem_singleton] at h2
    cases h2

/-- The OpenAI loop preserves the conversation bound. -/
theorem openaiLoop_bounded (sessionId : String)
    (execFn : String → ExecOutcome) (replies : Nat → Option OAReply)
    (aborted : Nat → Bool) :
    ∀ fuel s, oaMsgsBounded s.messages →
      oaMsgsBounded ((openaiLoop sessionId execFn replies aborted fuel s).messages) := by
  intro fuel
  induction fuel with
  | zero => intro s h; exact h
  | succ n ih =>
      intro s h
      rw [openaiLoop]
      cases hab : aborted s.turns with
      | true => simpa using h
      | false =>
          simp only [Bool.false_eq_true, if_false]
          cases hr : replies s.turns with
          | none => exact h
          | some msg =>
              simp only
              have h2 :
                  oaMsgsBounded (s.messages ++
                    [OAMessage.assistant msg.content msg.tool_calls]) :=
                oaMsgsBounded_append_assistant s.messages h msg.content msg.tool_calls
              cases hc : msg.content with
              | none =>
                  rw [hc] at h2
                  by_cases he : msg.tool_calls.isEmpty
                  · simpa [he] using h2
                  · simp only [Bool.not_eq_true] at he
                    simp only [he, Bool.false_eq_true, if_false]
                    exact ih _ (oa_foldl_bounded sessionId execFn msg.tool_calls _ h2)
              | some c =>
                  rw [hc] at h2
                  by_cases hce : c = ""
                  · subst hce
                    by_cases he : msg.tool_calls.isEmpty
                    · simpa [he] using h2
                    · simp only [Bool.not_eq_true] at he
                      simp only [he, Bool.false_eq_true, if_false,
                        eq_self_iff_true, if_true]
                      exact ih _ (oa_foldl_bounded sessionId execFn msg.tool_calls _ h2)
                  · by_cases he : msg.tool_calls.isEmpty
                    · simpa [hce, he] using h2
                    · simp only [Bool.not_eq_true] at he
                      simp only [hce, he, Bool.false_eq_true, if_false, if_true]
                      exact ih _ (oa_foldl_bounded sessionId execFn msg.tool_calls _ h2)

end Reef

namespace Reef

/-- Processing candidate parts never touches the conversation. -/
theorem gApplyPart_contents (sessionId : String)
    (execFn : String → ExecOutcome) (acc : GRun × List GPart) (p : GPart) :
    (gApplyPart sessionId execFn acc p).1.contents = acc.1.contents := by
  obtain ⟨s, resp⟩ := acc
  cases hf : p.functionCall <;> cases ht : p.text <;>
    simp [gApplyPart, runShellTool, hf, ht] <;> split <;> rfl

/-- Folding candidate parts never touches the conversation. -/
theorem g_foldl_contents (sessionId : String)
    (execFn : String → ExecOutcome) (parts : List GPart) :
    ∀ acc, ((parts.foldl (gApplyPart sessionId execFn) acc).1).contents =
      acc.1.contents := by
  induction parts with
  | nil => intro acc; rfl
  | cons p rest ih =>
      intro acc
      rw [List.foldl_cons, ih, gApplyPart_contents]

/-- Shape of the `toolResponseParts` step: unchanged, or extended by one
functionResponse part carrying the truncated tool result. -/
theorem gApplyPart_resp_shape (sessionId : String)
    (execFn : String → ExecOutcome) (acc : GRun × List GPart) (p : GPart) :
    (gApplyPart sessionId execFn acc p).2 = acc.2 ∨
    ∃ fc, p.functionCall = some fc ∧
      (gApplyPart sessionId execFn acc p).2 =
        acc.2 ++
          [{ functionResponse :=
              some (fc.name, execResult (execFn fc.command)) : GPart }] := by
  obtain ⟨s, resp⟩ := acc
  cases hf : p.functionCall with
  | none =>
      left
      cases ht : p.text <;> simp [gApplyPart, hf, ht] <;> split <;> rfl
  | some fc =>
      right
      refine ⟨fc, rfl, ?_⟩
      cases ht : p.text <;>
        simp [gApplyPart, runShellTool, hf, ht] <;> split <;> rfl

/-- Every functionResponse part collected in `toolResponseParts` carries
at most 4000 characters of result. -/
def gRespBounded (ps : List GPart) : Prop :=
  ∀ p ∈ ps, ∀ nm res, p.functionResponse = some (nm, res) → res.length ≤ 4000

/-- Folding candidate parts keeps `toolResponseParts` bounded. -/
theorem g_foldl_resp_bounded (sessionId : String)
    (execFn : String → ExecOutcome) (parts : List GPart) :
    ∀ acc, gRespBounded acc.2 →
      gRespBounded ((parts.foldl (gApplyPart sessionId execFn) acc).2) := by
  induction parts with
  | nil => intro acc h; exact h
  | cons p rest ih =>
      intro acc h
      rw [List.foldl_cons]
      apply ih
      rcases gApplyPart_resp_shape sessionId execFn acc p with hsame | ⟨fc, _, hext⟩
      · rw [hsame]; exact h
      · rw [hext]
        intro q hq nm res hfr
        rcases List.mem_append.mp hq with h1 | h2
        · exact h q h1 nm res hfr
        · rw [List.mem_singleton] at h2
          subst h2
          simp only [Option.some.injEq, Prod.mk.injEq] at hfr
          rw [← hfr.2]
          exact execResult_length _

/-- Every user-role conversation entry's functionResponse parts (the
tool-result turns the loop feeds back) carry at most 4000 characters. -/
def gUserRespBounded (cs : List GContent) : Prop :=
  ∀ content ∈ cs, content.role = "user" → gRespBounded content.parts

/-- The Google loop preserves the user-turn tool-result bound. -/
theorem googleLoop_user_resp_bounded (sessionId : String)
    (execFn : String → ExecOutcome) (replies : Nat → Option (List GPart))
    (aborted : Nat → Bool) :
    ∀ fuel s, gUserRespBounded s.contents →
      gUserRespBounded ((googleLoop sessionId execFn replies aborted fuel s).contents) := by
  intro fuel
  induction fuel with
  | zero => intro s h; exact h
  | succ n ih =>
      intro s h
      rw [googleLoop]
      cases hab : aborted s.turns with
      | true => simpa using h
      | false =>
          simp only [Bool.false_eq_true, if_false]
          cases hr : replies s.turns with
          | none => exact h
          | some parts =>
              simp only
              have h2 : gUserRespBounded (s.contents ++
                  [{ role := "model", parts := parts }]) := by
                intro content hc hrole
                rcases List.mem_append.mp hc with h1 | hcs
                · exact h content h1 hrole
                · rw [List.mem_singleton] at hcs
                  subst hcs
                  simp at hrole
              generalize hS : ({ s with turns := s.turns + 1, contents := s.contents ++ [{ role := "model", parts := parts }] } : GRun) = S
              by_cases hcond : ((parts.any (fun p => p.functionCall.isSome)) && !((parts.foldl (gApplyPart sessionId execFn) (S, [])).2).isEmpty) = true
              · rw [if_pos hcond]
                apply ih
                intro content hc hrole
                rcases List.mem_append.mp hc with h1 | hcs
                · rw [g_foldl_contents] at h1
                  rw [← hS] at h1
                  exact h2 content h1 hrole
                · rw [List.mem_singleton] at hcs
                  subst hcs
                  exact g_foldl_resp_bounded sessionId execFn parts _
                    (fun q hq => absurd hq (List.not_mem_nil q))
              · rw [if_neg hcond]
                intro content hc hrole
                rw [g_foldl_contents] at hc
                rw [← hS] at hc
                exact h2 content hc hrole

end Reef

namespace Reef

/-- C9: every shell-tool result a reference provider produces is the
`execResult` truncation (at most 4000 characters, on success and on
failure/timeout alike), and that same truncated text is what is appended
as an output chunk, emitted as the output event, and fed back into the
conversation — witnessed by `runShellTool`'s exact output and by the
conversation inductive bound of both provider loops. -/
theorem tool_output_truncated_4000 :
    (∀ o : ExecOutcome, (execResult o).length ≤ 4000) ∧
    (∀ (sessionId : String) (execFn : String → ExecOutcome)
        (name command : String),
        runShellTool sessionId execFn name command =
          (["⚡ " ++ name ++ "(" ++ command ++ ")", execResult (execFn command)],
           [ReefEvent.toolStart sessionId name command,
            ReefEvent.toolEnd sessionId name,
            ReefEvent.output sessionId (execResult (execFn command))],
           execResult (execFn command))) ∧
    (∀ (sessionId task : String) (execFn : String → ExecOutcome)
        (replies : Nat → Option OAReply) (aborted : Nat → Bool) (run : OARun),
        openaiRun true sessionId task execFn replies aborted = .ok run →
        ∀ cid c, OAMessage.tool cid c ∈ run.messages → c.length ≤ 4000) ∧
    (∀ (sessionId task : String) (execFn : String → ExecOutcome)
        (replies : Nat → Option (List GPart)) (aborted : Nat → Bool)
        (run : GRun),
        googleRun true sessionId task execFn replies aborted = .ok run →
        ∀ content ∈ run.contents, content.role = "user" →
          ∀ p ∈ content.parts, ∀ nm res,
            p.functionResponse = some (nm, res) → res.length ≤ 4000) := by
  refine ⟨execResult_length, fun _ _ _ _ => rfl, ?_, ?_⟩
  · intro sessionId task execFn replies aborted run hrun cid c hm
    have hrun' : run = openaiLoop sessionId execFn replies aborted 10
        { turns := 0,
          messages :=
            [ .system "You are a helpful assistant. You can execute shell commands using the shell tool.",
              .user task ],
          chunks := [], events := [] } := by
      simpa [openaiRun] using hrun.symm
    subst hrun'
    refine openaiLoop_bounded sessionId execFn replies aborted 10 _ ?_ cid c hm
    intro cid' c' hm'
    simp at hm'
  · intro sessionId task execFn replies aborted run hrun content hc hrole p hp nm res hfr
    have hrun' : run = googleLoop sessionId execFn replies aborted 10
        { turns := 0,
          contents := [{ role := "user", parts := [{ text := some task }] }],
          chunks := [], events := [] } := by
      simpa [googleRun] using hrun.symm
    subst hrun'
    refine googleLoop_user_resp_bounded sessionId execFn replies aborted 10 _
      ?_ content hc hrole p hp nm res hfr
    intro content' hc' hrole' p' hp' nm' res' hfr'
    simp at hc'
    subst hc'
    simp at hp'
    subst hp'
    simp at hfr'

/-- C9 witness: a 5000-character tool failure output is truncated to at
most 4000 characters. -/
theorem tool_output_truncated_4000_witness :
    (execResult (ExecOutcome.failure "timeout"
      (String.mk (List.replicate 5000 'a')) "")).length ≤ 4000 :=
  tool_output_truncated_4000.1
    (ExecOutcome.failure "timeout" (String.mk (List.replicate 5000 'a')) "")

end Reef

namespace Reef

/-- Apply a finished provider run's sink effects to the orchestrator
state: `ctx.onOutput` is `appendOutput`, `ctx.onEvent` is `emitReefEvent`
(provider-router.ts builds the context exactly so). -/
def applyProviderEffects (sessionId now : String) (chunks : List String)
    (events : List ReefEvent) (st : OrchState) : OrchState :=
  let st1 := chunks.foldl (fun acc c => appendOutput sessionId c now acc) st
  { st1 with events := st1.events ++ events }

/-- Replies that always request one shell tool call (keeps the loop
going until cancelled). -/
def c3Replies : Nat → Option OAReply :=
  fun _ => some { content := none, tool_calls := [{ callId := "c1", name := "shell", command := "echo hi" }] }

/-- Deterministic tool results for the cancellation trace. -/
def c3Exec : String → ExecOutcome := fun _ => .success "hi" ""

/-- The cancellation signal observed by the loop: set from the check
before the second turn on (the kill lands while turn 1's remote call is
in flight). -/
def c3Abort : Nat → Bool := fun t => decide (1 ≤ t)

/-- One full schedule of "cancel a running registry-routed session
mid-loop": route (row + session.new + registration), one loop turn's
effects, the kill, then — because the aborted loop breaks cleanly and its
run promise resolves — the route `.then` completion handler. -/
def c3Trace : OrchState :=
  match ProviderRouter.route "s1" "demo" "openai" none "t0" {} with
  | (stA, Except.ok row) =>
      match openaiRun true "s1" "demo" c3Exec c3Replies c3Abort with
      | Except.ok run =>
          ProviderRouter.routeCompleted "s1" "t2"
            (SessionManager.kill "s1" row
              (applyProviderEffects "s1" "t1" run.chunks run.events stA))
      | Except.error _ => stA
  | (stA, Except.error _) => stA

/-- C3 counterexample: cancelling the running registry-routed session
mid-loop does NOT produce exactly one end-session event — the kill emits
`session.end` "killed", but the aborted run then resolves cleanly and the
completion handler emits a second `session.end` with reason "completed"
(two end-session events in total). -/
theorem cancel_midloop_two_session_end_counterexample :
    c3Trace.events.filter ReefEvent.isSessionEnd =
      [ReefEvent.sessionEnd "s1" "killed",
       ReefEvent.sessionEnd "s1" "completed"] ∧
    (c3Trace.events.filter ReefEvent.isSessionEnd).length = 2 := by
  constructor <;> rfl

/-- C3 amended: cancelling a running registry-routed session emits, at
kill time, exactly one end-session event with reason "killed", signals
the abort handle, and the registry no longer reports the session alive;
but the aborted loop then stops cleanly (no error), its run resolves, and
the completion handler emits a further status event and a second
end-session event with reason "completed". -/
theorem cancel_registry_session_effects (sessionId : String)
    (row : SessionRow) (st : OrchState) (tmuxExists : String → Bool)
    (later : String)
    (h1 : st.sdkSessions.contains sessionId = false)
    (h2 : st.providerSessions.contains sessionId = true)
    (h3 : row.tmux_session = none)
    (h4 : row.backend = Backend.openai ∨ row.backend = Backend.google) :
    (SessionManager.kill sessionId row st).events =
      st.events ++ [ReefEvent.sessionEnd sessionId "killed"] ∧
    (SessionManager.kill sessionId row st).abortedIds =
      st.abortedIds ++ [sessionId] ∧
    SessionManager.isAlive tmuxExists (SessionManager.kill sessionId row st)
      sessionId row = false ∧
    (∀ (execFn : String → ExecOutcome) (replies : Nat → Option OAReply)
        (aborted : Nat → Bool) (s : OARun) (fuel : Nat),
        aborted s.turns = true →
        openaiLoop sessionId execFn replies aborted (fuel + 1) s = s) ∧
    (ProviderRouter.routeCompleted sessionId later
        (SessionManager.kill sessionId row st)).events =
      st.events ++
        [ReefEvent.sessionEnd sessionId "killed",
         ReefEvent.statusEv sessionId Status.completed none,
         ReefEvent.sessionEnd sessionId "completed"] := by
  have h1' : sessionId ∉ st.sdkSessions := by simpa using h1
  have h2' : sessionId ∈ st.providerSessions := by simpa using h2
  have hbne : ¬ row.backend = Backend.sdk := by
    rcases h4 with h | h <;> simp [h]
  have hk : SessionManager.kill sessionId row st =
      { st with providerSessions := mapDelete sessionId st.providerSessions,
                abortedIds := st.abortedIds ++ [sessionId],
                events := st.events ++ [ReefEvent.sessionEnd sessionId "killed"] } := by
    simp [SessionManager.kill, h1', h2', h3, emitReefEvent]
  refine ⟨?_, ?_, ?_, ?_, ?_⟩
  · rw [hk]
  · rw [hk]
  · rw [hk]
    simp [SessionManager.isAlive, hbne, h3]
    simpa using contains_mapDelete sessionId st.providerSessions
  · intro execFn replies aborted s fuel habs
    exact openaiLoop_aborted_stops sessionId execFn replies aborted fuel s habs
  · rw [hk]
    simp [ProviderRouter.routeCompleted, updateSessionStatus, emitReefEvent]

/-- C3 witness: concrete kill of the registered running session of the
cancellation trace. -/
theorem cancel_registry_session_effects_witness :
    (SessionManager.kill "s1" c2Row { providerSessions := ["s1"] }).events =
      ({ providerSessions := ["s1"] } : OrchState).events ++
        [ReefEvent.sessionEnd "s1" "killed"] ∧
    (SessionManager.kill "s1" c2Row { providerSessions := ["s1"] }).abortedIds =
      ({ providerSessions := ["s1"] } : OrchState).abortedIds ++ ["s1"] ∧
    SessionManager.isAlive (fun _ => false)
      (SessionManager.kill "s1" c2Row { providerSessions := ["s1"] })
      "s1" c2Row = false ∧
    (∀ (execFn : String → ExecOutcome) (replies : Nat → Option OAReply)
        (aborted : Nat → Bool) (s : OARun) (fuel : Nat),
        aborted s.turns = true →
        openaiLoop "s1" execFn replies aborted (fuel + 1) s = s) ∧
    (ProviderRouter.routeCompleted "s1" "t2"
        (SessionManager.kill "s1" c2Row { providerSessions := ["s1"] })).events =
      ({ providerSessions := ["s1"] } : OrchState).events ++
        [ReefEvent.sessionEnd "s1" "killed",
         ReefEvent.statusEv "s1" Status.completed none,
         ReefEvent.sessionEnd "s1" "completed"] :=
  cancel_registry_session_effects "s1" c2Row { providerSessions := ["s1"] }
    (fun _ => false) "t2" rfl rfl rfl (Or.inl rfl)

end Reef
